import Mathlib

/-
Shallow embedding of `homework.py` (a Telegram homework-status polling bot).

The embedding models Python values as an inductive `PyVal`, Python
exceptions as `PyExc`, and each function of the script as a total Lean
function returning `Except PyExc _` (an `.error` models a raised
exception propagating to the caller).  External effects (the HTTP
transport and the Telegram delivery) are inputs to the model: each poll
iteration receives the transport's result and the delivery outcomes of
any `bot.send_message` calls it makes.
-/

namespace HomeworkBot

/-- A decoded Python/JSON value, as the script manipulates them.
JSON object keys are strings; dict literals have unique keys, so an
association list with first-match lookup is faithful. -/
inductive PyVal where
  | pyNone : PyVal
  | pyInt (n : Int) : PyVal
  | pyStr (s : String) : PyVal
  | pyList (xs : List PyVal) : PyVal
  | pyDict (entries : List (String × PyVal)) : PyVal

/-- Python `d[key]` / `d.get(key)` lookup on a dict with string keys. -/
def lookupD (entries : List (String × PyVal)) (key : String) : Option PyVal :=
  match entries with
  | [] => none
  | (k, v) :: rest => if k = key then some v else lookupD rest key

/-- Python `type(v).__name__`. -/
def pyTypeName : PyVal → String
  | .pyNone => "NoneType"
  | .pyInt _ => "int"
  | .pyStr _ => "str"
  | .pyList _ => "list"
  | .pyDict _ => "dict"

mutual

/-- Python `repr(v)` for the values modelled here. -/
def pyRepr : PyVal → String
  | .pyNone => "None"
  | .pyInt n => toString n
  | .pyStr s => "\x27" ++ s ++ "\x27"
  | .pyList xs => "[" ++ pyReprList xs ++ "]"
  | .pyDict d => "\x7b" ++ pyReprDict d ++ "\x7d"

/-- Comma-separated reprs of list elements. -/
def pyReprList : List PyVal → String
  | [] => ""
  | [x] => pyRepr x
  | x :: rest => pyRepr x ++ ", " ++ pyReprList rest

/-- Comma-separated reprs of dict entries. -/
def pyReprDict : List (String × PyVal) → String
  | [] => ""
  | [(k, v)] => "\x27" ++ k ++ "\x27: " ++ pyRepr v
  | (k, v) :: rest => "\x27" ++ k ++ "\x27: " ++ pyRepr v ++ ", " ++ pyReprDict rest

end

/-- Python `str(v)`: like `repr` except a top-level string is unquoted. -/
def pyToStr : PyVal → String
  | .pyStr s => s
  | v => pyRepr v

/-- The exception classes the script raises, with their constructor
argument.  `keyError` stores the raw key/message argument; Python's
`str(KeyError(x))` shows `repr(x)`, which `excStr` reproduces. -/
inductive PyExc where
  | typeError (msg : String) : PyExc
  | keyError (arg : String) : PyExc
  | requestExceptionError (msg : String) : PyExc
  | connectionError (msg : String) : PyExc
  | httpError (msg : String) : PyExc
  | attributeError (msg : String) : PyExc
deriving DecidableEq

/-- Python `str(e)` on an exception: `str(KeyError(s))` is `repr(s)`
(the quoted key), every other class here shows its message verbatim. -/
def excStr : PyExc → String
  | .typeError m => m
  | .keyError a => "\x27" ++ a ++ "\x27"
  | .requestExceptionError m => m
  | .connectionError m => m
  | .httpError m => m
  | .attributeError m => m

/-- The exception's class name: distinct failure kinds are
distinguishable by class, as `except` clauses dispatch on it. -/
def excKind : PyExc → String
  | .typeError _ => "TypeError"
  | .keyError _ => "KeyError"
  | .requestExceptionError _ => "RequestExceptionError"
  | .connectionError _ => "ConnectionError"
  | .httpError _ => "HTTPError"
  | .attributeError _ => "AttributeError"

/-- The `HOMEWORK_VERDICTS` table of `homework.py` (lines 26-30). -/
def HOMEWORK_VERDICTS : List (String × String) :=
  [("approved", "Работа проверена: ревьюеру всё понравилось. Ура!"),
   ("reviewing", "Работа взята на проверку ревьюером."),
   ("rejected", "Работа проверена: у ревьюера есть замечания.")]

/-- `HOMEWORK_VERDICTS[status]` as an optional lookup. -/
def verdictLookup (status : String) : Option String :=
  match HOMEWORK_VERDICTS.find? (fun kv => kv.1 = status) with
  | some kv => some kv.2
  | none => none

/-- Outcome of one `bot.send_message` delivery attempt: either the
Telegram client delivers, or it raises `telegram.error.TelegramError`. -/
inductive SendOutcome where
  | delivered : SendOutcome
  | telegramError : SendOutcome
deriving DecidableEq

/-- `send_message` (lines 48-68): attempts delivery; on a
`TelegramError` it logs and re-raises `RequestExceptionError`
(the raise on line 66); on success it returns the message. -/
def send_message (outcome : SendOutcome) (message : String) : Except PyExc String :=
  match outcome with
  | .telegramError => .error (.requestExceptionError ("Бот не отправил " ++ message ++ "."))
  | .delivered => .ok message

/-- What the HTTP transport did for one request: either
`requests.get` raised a `RequestException`, or it produced a response
with a status code and a decoded JSON body. -/
inductive TransportResult where
  | transportFailure (errText : String) : TransportResult
  | httpResponse (statusCode : Nat) (body : PyVal) : TransportResult

/-- `get_api_answer` (lines 71-96): a transport failure is re-raised
as `ConnectionError`; a non-200 status raises
`requests.exceptions.HTTPError` carrying the code; on 200 the decoded
JSON body is returned. -/
def get_api_answer (t : TransportResult) : Except PyExc PyVal :=
  match t with
  | .transportFailure e => .error (.connectionError ("Проблема с ответом сервера: " ++ e))
  | .httpResponse code body =>
      if code ≠ 200 then .error (.httpError ("Ошибка " ++ toString code))
      else .ok body

/-- `check_response` (lines 99-117): accepts exactly a dict containing
both keys `current_date` and `homeworks` with `homeworks` a list, and
returns `response['homeworks']`; anything else raises
`TypeError('Ответ API не корректен')`.  The value of `current_date` is
only tested for presence, never for its type. -/
def check_response (response : PyVal) : Except PyExc PyVal :=
  match response with
  | .pyDict d =>
      match lookupD d "current_date", lookupD d "homeworks" with
      | some _, some hw =>
          match hw with
          | .pyList xs => .ok (.pyList xs)
          | _ => .error (.typeError "Ответ API не корректен")
      | _, _ => .error (.typeError "Ответ API не корректен")
  | _ => .error (.typeError "Ответ API не корректен")

/-- `parse_status` (lines 120-145): reads `homework['homework_name']`
then `homework['status']`, re-raising a missing key as a `KeyError`
whose message names the absent key; looks the status up in
`HOMEWORK_VERDICTS`, re-raising an unknown status as
`RequestExceptionError`; on success formats the verdict line.
Subscripting a non-dict raises `TypeError` (uncaught by the
`except KeyError` clauses), and an unhashable status raises `TypeError`
from the dict lookup. -/
def parse_status (homework : PyVal) : Except PyExc String :=
  match homework with
  | .pyDict d =>
      match lookupD d "homework_name" with
      | none => .error (.keyError ("Ключ " ++ excStr (.keyError "homework_name") ++ " не найден в информации о домашней работе"))
      | some nameV =>
          match lookupD d "status" with
          | none => .error (.keyError ("Ключ " ++ excStr (.keyError "status") ++ " не найден в информации о домашней работе"))
          | some statusV =>
              match statusV with
              | .pyStr status =>
                  match verdictLookup status with
                  | some verdict =>
                      .ok ("Изменился статус проверки работы \"" ++ pyToStr nameV ++ "\". " ++ verdict)
                  | none =>
                      .error (.requestExceptionError ("Статус домашней работы неопределен: " ++ excStr (.keyError status)))
              | .pyList _ => .error (.typeError "unhashable type: \x27list\x27")
              | .pyDict _ => .error (.typeError "unhashable type: \x27dict\x27")
              | sv =>
                  .error (.requestExceptionError ("Статус домашней работы неопределен: " ++ pyRepr sv))
  | other => .error (.typeError ("\x27" ++ pyTypeName other ++ "\x27 object is not subscriptable"))

/-- The three environment secrets as the module-level globals hold them:
`os.getenv` yields `none` for an unset variable and `some s` (possibly
the empty string) for a set one. -/
structure Config where
  practicumToken : Option String
  telegramToken : Option String
  telegramChatId : Option String

/-- `check_tokens` (lines 148-161): for each secret name in order, if
the global is `None` it logs critical and raises
`RequestExceptionError`; only `is None` is tested, so a present-but-
empty string passes. -/
def check_tokens (c : Config) : Except PyExc Unit :=
  match c.practicumToken with
  | none => .error (.requestExceptionError "Токен PRACTICUM_TOKEN не найден")
  | some _ =>
      match c.telegramToken with
      | none => .error (.requestExceptionError "Токен TELEGRAM_TOKEN не найден")
      | some _ =>
          match c.telegramChatId with
          | none => .error (.requestExceptionError "Токен TELEGRAM_CHAT_ID не найден")
          | some _ => .ok ()

/-- How `main` starts (lines 164-168): `check_tokens()` is called
before the loop with no surrounding handler, so its exception
terminates the process; otherwise execution reaches the `while True`. -/
inductive StartupResult where
  | entersLoop : StartupResult
  | terminatesCritical (msg : String) : StartupResult
deriving DecidableEq

/-- Startup behaviour of `main` as a function of the configuration. -/
def mainStartup (c : Config) : StartupResult :=
  match check_tokens c with
  | .ok _ => .entersLoop
  | .error e => .terminatesCritical (excStr e)

/-- The value of `main`'s `old_error` variable.  It starts as the
string `''` (line 169); after a successfully delivered failure
notification it holds the exception *object* (line 185).  Python's
`error != old_error` on these classes falls back to identity, so the
marker must remember the object's identity, not just its text. -/
inductive Marker where
  | initialEmptyStr : Marker
  | excObj (objId : Nat) (exc : PyExc) : Marker
deriving DecidableEq

/-- Python `error != old_error` (line 182): an exception compared to
the initial `''` is unequal; none of the raised classes defines
`__eq__`, so two exception objects compare by identity. -/
def pyNeqMarker (objId : Nat) (m : Marker) : Bool :=
  match m with
  | .initialEmptyStr => true
  | .excObj oldId _ => objId != oldId

/-- The external events of one poll iteration: what the transport did,
the delivery outcome of a status notification and of a failure
notification (each used only if that send is attempted), and the
identity of the exception object raised this iteration (fresh: a new
object is constructed on every raise). -/
structure IterInput where
  transport : TransportResult
  statusSend : SendOutcome
  failSend : SendOutcome
  excId : Nat

/-- Observable result of one iteration of the `while True` body:
the timestamp and `old_error` afterwards, the messages for which
`send_message` was invoked (in order), and the exception, if any, that
escaped the iteration (crashing `main`). -/
structure IterResult where
  timestamp : PyVal
  marker : Marker
  sent : List String
  crashed : Option PyExc

/-- The `try` block of `main` (lines 171-179): fetch, assign
`timestamp = response.get('current_date')` (before validation; `.get`
on a non-dict raises `AttributeError`), validate, and if the homework
list is non-empty, format element 0 and send it.  Returns the
timestamp value after the block, the messages sent inside it, and the
exception that left it, if any.  `check_response` only ever returns
`pyList` values, so the final catch-all arm is unreachable. -/
def tryBody (ts : PyVal) (inp : IterInput) : PyVal × List String × Option PyExc :=
  match get_api_answer inp.transport with
  | .error e => (ts, [], some e)
  | .ok response =>
      match response with
      | .pyDict d =>
          let tsNew := (lookupD d "current_date").getD .pyNone
          match check_response (.pyDict d) with
          | .error e => (tsNew, [], some e)
          | .ok (.pyList []) => (tsNew, [], none)
          | .ok (.pyList (h :: _)) =>
              match parse_status h with
              | .error e => (tsNew, [], some e)
              | .ok message =>
                  match send_message inp.statusSend message with
                  | .error e => (tsNew, [message], some e)
                  | .ok _ => (tsNew, [message], none)
          | .ok _ => (tsNew, [], none)
      | other =>
          (ts, [], some (.attributeError ("\x27" ++ pyTypeName other ++ "\x27 object has no attribute \x27get\x27")))

/-- One iteration of `main`'s loop (lines 170-187): run the `try`
block; on an exception, if `error != old_error` send the failure
notification `f'Сбой в работе программы: {error}'` and only then
update `old_error` (line 185) — so if that send itself raises, the
exception escapes `main` uncaught and the marker stays stale. -/
def pollIter (ts : PyVal) (oldErr : Marker) (inp : IterInput) : IterResult :=
  match tryBody ts inp with
  | (tsNew, trySent, none) => ⟨tsNew, oldErr, trySent, none⟩
  | (tsNew, trySent, some e) =>
      if pyNeqMarker inp.excId oldErr then
        match send_message inp.failSend ("Сбой в работе программы: " ++ excStr e) with
        | .error e2 => ⟨tsNew, oldErr, trySent ++ ["Сбой в работе программы: " ++ excStr e], some e2⟩
        | .ok _ => ⟨tsNew, .excObj inp.excId e, trySent ++ ["Сбой в работе программы: " ++ excStr e], none⟩
      else
        ⟨tsNew, oldErr, trySent, none⟩

/-- The loop state `main` threads between iterations. -/
structure LoopState where
  timestamp : PyVal
  marker : Marker

/-- Trace of a run: the `from_date` value each issued request carried
(the timestamp at the start of its iteration), every message passed to
`send_message` in order, the final state, and the exception that
crashed the loop, if any. -/
structure RunTrace where
  fromDates : List PyVal
  sent : List String
  final : LoopState
  crashed : Option PyExc

/-- Run the loop over a finite prefix of iterations; a crash stops it. -/
def runIters (st : LoopState) : List IterInput → RunTrace
  | [] => ⟨[], [], st, none⟩
  | inp :: rest =>
      let r := pollIter st.timestamp st.marker inp
      let tail :=
        match r.crashed with
        | some e => RunTrace.mk [] [] ⟨r.timestamp, r.marker⟩ (some e)
        | none => runIters ⟨r.timestamp, r.marker⟩ rest
      ⟨st.timestamp :: tail.fromDates, r.sent ++ tail.sent, tail.final, tail.crashed⟩

/-- Every one-iteration run issues exactly one request, whose
`from_date` is the timestamp the iteration started with, whether or
not the iteration crashes. -/
theorem runIters_singleton_fromDates (st : LoopState) (inp : IterInput) :
    (runIters st [inp]).fromDates = [st.timestamp] := by
  cases h : (pollIter st.timestamp st.marker inp).crashed <;> simp [runIters, h]

/-- Claim C1, counterexample: the claim says a delivery failure inside
`send_message` is logged and swallowed so that the call never raises to
its caller; but at the concrete input of a `TelegramError` delivery
failure, `send_message` raises `RequestExceptionError` to its caller
(the `raise` on line 66 of `homework.py`). -/
theorem C1_counterexample :
    send_message .telegramError "тест" =
      .error (.requestExceptionError "Бот не отправил тест.") := rfl

/-- Claim C1, amended: on any delivery failure `send_message` logs the
failure and re-raises it as `RequestExceptionError` to its caller; the
Poll Loop's `try` catches a delivery failure of the status
notification (the iteration survives and reports it as the iteration's
error), but a delivery failure while dispatching a failure
notification is raised inside the `except` handler and escapes the
loop uncaught, crashing `main`. -/
theorem C1_amended :
    (∀ (m : String), send_message .telegramError m =
        .error (.requestExceptionError ("Бот не отправил " ++ m ++ ".")))
    ∧ pollIter (.pyInt 1700000000) .initialEmptyStr
        ⟨.httpResponse 200 (.pyDict [("homeworks", .pyList [.pyDict [("homework_name", .pyStr "proj1"), ("status", .pyStr "approved")]]), ("current_date", .pyInt 1700000100)]),
         .telegramError, .delivered, 0⟩
      = ⟨.pyInt 1700000100,
         .excObj 0 (.requestExceptionError "Бот не отправил Изменился статус проверки работы \"proj1\". Работа проверена: ревьюеру всё понравилось. Ура!."),
         ["Изменился статус проверки работы \"proj1\". Работа проверена: ревьюеру всё понравилось. Ура!",
          "Сбой в работе программы: Бот не отправил Изменился статус проверки работы \"proj1\". Работа проверена: ревьюеру всё понравилось. Ура!."],
         none⟩
    ∧ pollIter (.pyInt 1700000000) .initialEmptyStr
        ⟨.transportFailure "connection reset", .delivered, .telegramError, 0⟩
      = ⟨.pyInt 1700000000, .initialEmptyStr,
         ["Сбой в работе программы: Проблема с ответом сервера: connection reset"],
         some (.requestExceptionError "Бот не отправил Сбой в работе программы: Проблема с ответом сервера: connection reset.")⟩ :=
  ⟨fun _ => rfl, rfl, rfl⟩

/-- Claim C2, behaviour at the failing input: iterations N and N+1
both raise an error with the identical string representation
`Проблема с ответом сервера: boom`, and iteration N+2 raises a
different one; the loop dispatches a failure notification on all
three iterations — the duplicate at N+1 is *not* suppressed, because
`error != old_error` (line 182) compares the exception object held in
`old_error` by identity, and each iteration raises a fresh object.
The claim (and the spec's dedup law) expects only two notifications. -/
theorem C2_code_behavior :
    (runIters ⟨.pyInt 1700000000, .initialEmptyStr⟩
      [⟨.transportFailure "boom", .delivered, .delivered, 0⟩,
       ⟨.transportFailure "boom", .delivered, .delivered, 1⟩,
       ⟨.transportFailure "crash", .delivered, .delivered, 2⟩]).sent
    = ["Сбой в работе программы: Проблема с ответом сервера: boom",
       "Сбой в работе программы: Проблема с ответом сервера: boom",
       "Сбой в работе программы: Проблема с ответом сервера: crash"] := rfl

/-- Claim C3, counterexample: the claim says a response whose
`current_date` is present but mistyped is rejected as malformed; but
`check_response` accepts a dict whose `current_date` is the string
`oops` — only the key's presence is tested (line 113), never its
type. -/
theorem C3_counterexample :
    check_response (.pyDict [("homeworks", .pyList []), ("current_date", .pyStr "oops")])
      = .ok (.pyList []) := rfl

/-- Claim C3, amended: `check_response` rejects a value with a
type/shape error whenever it is not a mapping, or `homeworks` or
`current_date` is absent, or `homeworks` is not a list; the type of
`current_date` is not checked, so a response whose `current_date` is
present with any value (of any type) is accepted. -/
theorem C3_amended :
    (∀ (cd : PyVal), check_response (.pyDict [("homeworks", .pyList []), ("current_date", cd)])
        = .ok (.pyList []))
    ∧ check_response (.pyList []) = .error (.typeError "Ответ API не корректен")
    ∧ check_response (.pyDict [("current_date", .pyInt 1700000100)])
        = .error (.typeError "Ответ API не корректен")
    ∧ check_response (.pyDict [("homeworks", .pyList [])])
        = .error (.typeError "Ответ API не корректен")
    ∧ check_response (.pyDict [("homeworks", .pyInt 7), ("current_date", .pyInt 1700000100)])
        = .error (.typeError "Ответ API не корректен") :=
  ⟨fun _ => rfl, rfl, rfl, rfl, rfl⟩

/-- Claim C4, counterexample: the claim says that when any secret is
empty the program logs a critical condition and terminates without
entering the loop; but with all three secrets present as empty strings
`check_tokens` passes (only `is None` is tested, line 158) and startup
proceeds into the polling loop. -/
theorem C4_counterexample :
    mainStartup ⟨some "", some "", some ""⟩ = .entersLoop := rfl

/-- Claim C4, amended: startup proceeds into the polling loop exactly
when all three secrets are present (set in the environment, even as
empty strings); when one is missing (unset, i.e. `None`), startup logs
a critical condition naming the token and terminates before entering
the loop. -/
theorem C4_amended :
    (∀ (c : Config), mainStartup c = .entersLoop ↔
      (c.practicumToken.isSome ∧ c.telegramToken.isSome ∧ c.telegramChatId.isSome))
    ∧ (∀ (t ch : Option String), mainStartup ⟨none, t, ch⟩
        = .terminatesCritical "Токен PRACTICUM_TOKEN не найден")
    ∧ (∀ (p : String) (ch : Option String), mainStartup ⟨some p, none, ch⟩
        = .terminatesCritical "Токен TELEGRAM_TOKEN не найден")
    ∧ (∀ (p t : String), mainStartup ⟨some p, some t, none⟩
        = .terminatesCritical "Токен TELEGRAM_CHAT_ID не найден") := by
  refine ⟨?_, fun _ _ => rfl, fun _ _ => rfl, fun _ _ => rfl⟩
  rintro ⟨p, t, ch⟩
  cases p <;> cases t <;> cases ch <;> simp [mainStartup, check_tokens]

/-- Claim C5: for every submission mapping, `parse_status` returns
`Изменился статус проверки работы "{name}". {verdict}` with the
verdict taken from `HOMEWORK_VERDICTS` when the status is found there
(and the table holds exactly the fixed strings for `approved`,
`reviewing`, `rejected`); an unrecognized status string fails with the
unrecognized-status `RequestExceptionError`; a missing
`homework_name` or `status` key fails with a `KeyError` whose message
names the absent key. -/
theorem C5_theorem :
    (∀ (d : List (String × PyVal)) (nameV : PyVal) (status verdict : String),
        lookupD d "homework_name" = some nameV →
        lookupD d "status" = some (.pyStr status) →
        verdictLookup status = some verdict →
        parse_status (.pyDict d) =
          .ok ("Изменился статус проверки работы \"" ++ pyToStr nameV ++ "\". " ++ verdict))
    ∧ (∀ (d : List (String × PyVal)) (nameV : PyVal) (status : String),
        lookupD d "homework_name" = some nameV →
        lookupD d "status" = some (.pyStr status) →
        verdictLookup status = none →
        parse_status (.pyDict d) =
          .error (.requestExceptionError ("Статус домашней работы неопределен: \x27" ++ status ++ "\x27")))
    ∧ (∀ (d : List (String × PyVal)),
        lookupD d "homework_name" = none →
        parse_status (.pyDict d) =
          .error (.keyError "Ключ \x27homework_name\x27 не найден в информации о домашней работе"))
    ∧ (∀ (d : List (String × PyVal)) (nameV : PyVal),
        lookupD d "homework_name" = some nameV →
        lookupD d "status" = none →
        parse_status (.pyDict d) =
          .error (.keyError "Ключ \x27status\x27 не найден в информации о домашней работе"))
    ∧ verdictLookup "approved" = some "Работа проверена: ревьюеру всё понравилось. Ура!"
    ∧ verdictLookup "reviewing" = some "Работа взята на проверку ревьюером."
    ∧ verdictLookup "rejected" = some "Работа проверена: у ревьюера есть замечания." := by
  refine ⟨?_, ?_, ?_, ?_, rfl, rfl, rfl⟩
  · intro d nameV status verdict h1 h2 h3
    simp only [parse_status, h1, h2, h3]
  · intro d nameV status h1 h2 h3
    simp only [parse_status, h1, h2, h3]
    rfl
  · intro d h1
    simp only [parse_status, h1]
    rfl
  · intro d nameV h1 h2
    simp only [parse_status, h1, h2]
    rfl

/-- Claim C5, witness: each hypothesis-bearing part of `C5_theorem`
evaluated at a concrete submission. -/
theorem C5_witness :
    parse_status (.pyDict [("homework_name", .pyStr "proj1"), ("status", .pyStr "approved")])
      = .ok "Изменился статус проверки работы \"proj1\". Работа проверена: ревьюеру всё понравилось. Ура!"
    ∧ parse_status (.pyDict [("homework_name", .pyStr "proj1"), ("status", .pyStr "weird")])
      = .error (.requestExceptionError "Статус домашней работы неопределен: \x27weird\x27")
    ∧ parse_status (.pyDict [("status", .pyStr "approved")])
      = .error (.keyError "Ключ \x27homework_name\x27 не найден в информации о домашней работе")
    ∧ parse_status (.pyDict [("homework_name", .pyStr "proj1")])
      = .error (.keyError "Ключ \x27status\x27 не найден в информации о домашней работе") :=
  ⟨C5_theorem.1 _ (.pyStr "proj1") "approved" "Работа проверена: ревьюеру всё понравилось. Ура!" rfl rfl rfl,
   C5_theorem.2.1 _ (.pyStr "proj1") "weird" rfl rfl rfl,
   C5_theorem.2.2.1 _ rfl,
   C5_theorem.2.2.2.1 _ (.pyStr "proj1") rfl rfl⟩

/-- Claim C6: in an iteration whose response is a mapping with a
non-empty `homeworks` list and a `current_date`, the loop formats
exactly the first element, dispatches exactly that one notification
(later submissions produce none), advances the cursor to the
response's `current_date`, does not crash, and leaves the error
marker unchanged. -/
theorem C6_theorem :
    ∀ (ts : PyVal) (marker : Marker) (hw : PyVal) (rest : List PyVal) (cd : PyVal)
      (msg : String) (fs : SendOutcome) (i : Nat),
    parse_status hw = .ok msg →
    pollIter ts marker
        ⟨.httpResponse 200 (.pyDict [("homeworks", .pyList (hw :: rest)), ("current_date", cd)]),
         .delivered, fs, i⟩
      = ⟨cd, marker, [msg], none⟩ := by
  intro ts marker hw rest cd msg fs i h
  have h200 : get_api_answer (.httpResponse 200 (.pyDict [("homeworks", .pyList (hw :: rest)), ("current_date", cd)]))
      = .ok (.pyDict [("homeworks", .pyList (hw :: rest)), ("current_date", cd)]) := rfl
  have hc : check_response (.pyDict [("homeworks", .pyList (hw :: rest)), ("current_date", cd)])
      = .ok (.pyList (hw :: rest)) := rfl
  have hl : lookupD [("homeworks", .pyList (hw :: rest)), ("current_date", cd)] "current_date" = some cd := rfl
  have hb : tryBody ts
      ⟨.httpResponse 200 (.pyDict [("homeworks", .pyList (hw :: rest)), ("current_date", cd)]), .delivered, fs, i⟩
      = (cd, [msg], none) := by
    simp only [tryBody, h200, hc, hl, h, send_message, Option.getD_some]
  simp only [pollIter, hb]

/-- Claim C6, witness: the spec's end-to-end scenario — one `approved`
submission named `proj1`, `current_date` 1700000100, prior cursor
1700000000 — yields exactly one notification and the advanced
cursor. -/
theorem C6_witness :
    pollIter (.pyInt 1700000000) .initialEmptyStr
      ⟨.httpResponse 200 (.pyDict [("homeworks", .pyList [.pyDict [("homework_name", .pyStr "proj1"), ("status", .pyStr "approved")], .pyDict [("homework_name", .pyStr "proj2"), ("status", .pyStr "rejected")]]), ("current_date", .pyInt 1700000100)]),
       .delivered, .delivered, 0⟩
    = ⟨.pyInt 1700000100, .initialEmptyStr,
       ["Изменился статус проверки работы \"proj1\". Работа проверена: ревьюеру всё понравилось. Ура!"],
       none⟩ :=
  C6_theorem (.pyInt 1700000000) .initialEmptyStr
    (.pyDict [("homework_name", .pyStr "proj1"), ("status", .pyStr "approved")])
    [.pyDict [("homework_name", .pyStr "proj2"), ("status", .pyStr "rejected")]]
    (.pyInt 1700000100)
    "Изменился статус проверки работы \"proj1\". Работа проверена: ревьюеру всё понравилось. Ура!"
    .delivered 0 rfl

/-- Claim C7: a response that is a mapping with `homeworks` an empty
list and a `current_date` passes the validator (the empty list is
valid), the iteration sends no notification, does not crash, leaves
the error marker unchanged, and the cursor still advances to the
response's `current_date`. -/
theorem C7_theorem :
    ∀ (ts cd : PyVal) (marker : Marker) (ss fs : SendOutcome) (i : Nat),
    check_response (.pyDict [("homeworks", .pyList []), ("current_date", cd)]) = .ok (.pyList [])
    ∧ pollIter ts marker
        ⟨.httpResponse 200 (.pyDict [("homeworks", .pyList []), ("current_date", cd)]), ss, fs, i⟩
      = ⟨cd, marker, [], none⟩ :=
  fun _ _ _ _ _ _ => ⟨rfl, rfl⟩

/-- Claim C8: `get_api_answer` surfaces a transport-level failure as a
`ConnectionError`, surfaces any non-200 HTTP status as an `HTTPError`
carrying the status code in its message, returns the decoded JSON body
on HTTP 200, and the two failure kinds are distinguishable (distinct
exception classes). -/
theorem C8_theorem :
    (∀ (e : String), get_api_answer (.transportFailure e)
        = .error (.connectionError ("Проблема с ответом сервера: " ++ e)))
    ∧ (∀ (code : Nat) (body : PyVal), code ≠ 200 →
        get_api_answer (.httpResponse code body)
          = .error (.httpError ("Ошибка " ++ toString code)))
    ∧ (∀ (body : PyVal), get_api_answer (.httpResponse 200 body) = .ok body)
    ∧ (∀ (a b : String), excKind (.connectionError a) = "ConnectionError"
        ∧ excKind (.httpError b) = "HTTPError")
    ∧ ((("ConnectionError" : String) == "HTTPError") = false) := by
  refine ⟨fun _ => rfl, ?_, fun _ => rfl, fun _ _ => ⟨rfl, rfl⟩, rfl⟩
  intro code body h
  simp only [get_api_answer]
  rw [if_pos h]

/-- Claim C8, witness: the non-200 part of `C8_theorem` evaluated at
HTTP 503 — the raised `HTTPError` carries the code 503. -/
theorem C8_witness :
    get_api_answer (.httpResponse 503 (.pyDict [])) = .error (.httpError "Ошибка 503") :=
  C8_theorem.2.1 503 (.pyDict []) (by decide)

/-- Claim C9: when the HTTP call succeeds with a mapping that lacks
`current_date`, the loop assigns the cursor from
`response.get('current_date')` *before* validation, so the cursor
becomes `None`; the iteration then fails with the validator's shape
error (reported, not crashing), and the next request is issued with
`from_date` equal to `None` — the cursor is not left unchanged on this
error path. -/
theorem C9_theorem :
    ∀ (t0 : Int) (ss : SendOutcome) (i : Nat) (inp2 : IterInput),
    pollIter (.pyInt t0) .initialEmptyStr
        ⟨.httpResponse 200 (.pyDict [("homeworks", .pyList [])]), ss, .delivered, i⟩
      = ⟨.pyNone, .excObj i (.typeError "Ответ API не корректен"),
         ["Сбой в работе программы: Ответ API не корректен"], none⟩
    ∧ (runIters ⟨.pyInt t0, .initialEmptyStr⟩
        [⟨.httpResponse 200 (.pyDict [("homeworks", .pyList [])]), ss, .delivered, i⟩, inp2]).fromDates
      = [.pyInt t0, .pyNone] := by
  intro t0 ss i inp2
  refine ⟨rfl, ?_⟩
  have h1 : pollIter (.pyInt t0) .initialEmptyStr
      ⟨.httpResponse 200 (.pyDict [("homeworks", .pyList [])]), ss, .delivered, i⟩
      = ⟨.pyNone, .excObj i (.typeError "Ответ API не корректен"),
         ["Сбой в работе программы: Ответ API не корректен"], none⟩ := rfl
  simp only [runIters, h1]
  cases h2 : (pollIter PyVal.pyNone (Marker.excObj i (PyExc.typeError "Ответ API не корректен")) inp2).crashed
  all_goals simp [h2]

/-- Claim C10: `check_response` is total: it returns
`response['homeworks']` exactly when the input is a mapping containing
both `homeworks` (as a list) and `current_date`, and on every other
input it raises exactly `TypeError('Ответ API не корректен')` — no
other exception; it never inspects the list's elements, so a
`homeworks` list of arbitrary (non-submission) values passes
validation unchanged. -/
theorem C10_theorem :
    (∀ (r : PyVal) (elems : List PyVal),
        check_response r = .ok (.pyList elems) ↔
          ∃ d, r = .pyDict d ∧ lookupD d "homeworks" = some (.pyList elems)
             ∧ (lookupD d "current_date").isSome = true)
    ∧ (∀ (r : PyVal),
        check_response r = .error (.typeError "Ответ API не корректен")
        ∨ ∃ elems, check_response r = .ok (.pyList elems))
    ∧ (∀ (cd : PyVal) (elems : List PyVal),
        check_response (.pyDict [("current_date", cd), ("homeworks", .pyList elems)])
          = .ok (.pyList elems)) := by
  refine ⟨?_, ?_, fun _ _ => rfl⟩
  · intro r elems
    constructor
    · intro h
      cases r with
      | pyDict d =>
          refine ⟨d, rfl, ?_, ?_⟩ <;>
          · cases h1 : lookupD d "current_date" with
            | none => simp [check_response, h1] at h
            | some cdv =>
              cases h2 : lookupD d "homeworks" with
              | none => simp [check_response, h1, h2] at h
              | some hw =>
                cases hw <;> simp_all [check_response, h1, h2]
      | pyNone => simp [check_response] at h
      | pyInt n => simp [check_response] at h
      | pyStr s => simp [check_response] at h
      | pyList xs => simp [check_response] at h
    · rintro ⟨d, rfl, h2, h1⟩
      rw [Option.isSome_iff_exists] at h1
      obtain ⟨cdv, h1⟩ := h1
      simp [check_response, h1, h2]
  · intro r
    cases r with
    | pyDict d =>
        cases h1 : lookupD d "current_date" with
        | none => left; simp [check_response, h1]
        | some cdv =>
          cases h2 : lookupD d "homeworks" with
          | none => left; simp [check_response, h1, h2]
          | some hw =>
            cases hw with
            | pyList xs => right; exact ⟨xs, by simp [check_response, h1, h2]⟩
            | pyNone => left; simp [check_response, h1, h2]
            | pyInt n => left; simp [check_response, h1, h2]
            | pyStr s => left; simp [check_response, h1, h2]
            | pyDict d2 => left; simp [check_response, h1, h2]
    | pyNone => left; rfl
    | pyInt n => left; rfl
    | pyStr s => left; rfl
    | pyList xs => left; rfl

end HomeworkBot
